import Mathlib

/-!
Shallow embedding of the PrajnaBots device sync layer.

Numbers that JavaScript handles as doubles are modelled as rationals (ℚ);
every arithmetic operation that the claims touch (addition, multiplication,
division by 2 or by the milliseconds-per-day constant, order comparisons at
integer boundaries) is exact on the inputs involved. Values that may be
`null`/absent in JavaScript are modelled as `Option`. Network calls and the
hosted store are modelled by passing the fetched data / the store state as
explicit arguments; the Firebase multi-path `update` is modelled as the
corresponding functional update of the state.
-/

namespace PrajnaBots

/-- JavaScript `x || d` for an optional numeric field: a missing field and a
zero value are both falsy, so both yield the default `d`. -/
def jsOrNum (o : Option ℚ) (d : ℚ) : ℚ :=
  match o with
  | none => d
  | some x => if x = 0 then d else x

/-- JavaScript `s || d` for an optional string field: a missing field and the
empty string are both falsy, so both yield the default `d`. -/
def jsOrStr (o : Option String) (d : String) : String :=
  match o with
  | none => d
  | some s => if s = "" then d else s

/-- JavaScript truthiness of an optional numeric timestamp:
`null` and `0` are falsy. -/
def jsTruthyTime : Option ℚ → Bool
  | none => false
  | some t => decide (t ≠ 0)

/- ### Weather module (weather API integration source file) -/

/-- Average of the two particulate measures, `(pm25 + pm10) / 2`, as computed
identically in both provider adapters. -/
def dustLevelOf (pm25 pm10 : ℚ) : ℚ := (pm25 + pm10) / 2

/-- The category chain of both provider adapters: start from `light`,
override with `high` when the level exceeds 150, else with `moderate` when it
exceeds 50. -/
def dustCategoryOf (dustLevel : ℚ) : String :=
  if dustLevel > 150 then "high"
  else if dustLevel > 50 then "moderate"
  else "light"

/-- The `components` object of an OpenWeatherMap air-pollution response;
the two fields the adapter reads, each possibly absent. -/
structure AirComponents where
  pm2_5 : Option ℚ
  pm10 : Option ℚ

/-- The normalized dust record both adapters return. -/
structure DustData where
  dustLevel : ℚ
  dustCategory : String
  pm25 : ℚ
  pm10 : ℚ
  aqi : ℚ
  timestamp : ℚ

/-- Normalization step of `fetchOpenWeatherMapData` on a successful response:
read `pm2_5 || 0` and `pm10 || 0`, average them, categorize. The network
fetch itself is outside the embedding; `aqi` and `now` are the response AQI
field and `Date.now()`. -/
def fetchOpenWeatherMapData (components : AirComponents) (aqi : ℚ) (now : ℚ) : DustData :=
  let pm25 := jsOrNum components.pm2_5 0
  let pm10 := jsOrNum components.pm10 0
  let dustLevel := (pm25 + pm10) / 2
  { dustLevel := dustLevel
    dustCategory := dustCategoryOf dustLevel
    pm25 := pm25
    pm10 := pm10
    aqi := aqi
    timestamp := now }

/-- The `air_quality` object of a WeatherAPI.com response. -/
structure AirQuality where
  pm2_5 : Option ℚ
  pm10 : Option ℚ
  usEpaIndex : ℚ

/-- Normalization step of `fetchWeatherAPIData` on a successful response:
identical averaging and categorization, AQI taken from the `us-epa-index`
field. -/
def fetchWeatherAPIData (airQuality : AirQuality) (now : ℚ) : DustData :=
  let pm25 := jsOrNum airQuality.pm2_5 0
  let pm10 := jsOrNum airQuality.pm10 0
  let dustLevel := (pm25 + pm10) / 2
  { dustLevel := dustLevel
    dustCategory := dustCategoryOf dustLevel
    pm25 := pm25
    pm10 := pm10
    aqi := airQuality.usEpaIndex
    timestamp := now }

/- ### Device data model (database initialization source file) -/

/-- `devices/{id}/info` subtree. -/
structure DeviceInfo where
  name : String
  location : String
  installDate : String
  panelRating : ℚ
  lat : ℚ
  lon : ℚ
  ownerId : String
  lastUpdated : ℚ
  status : String

/-- `devices/{id}/environment` subtree. -/
structure Environment where
  humidity : ℚ
  temperature : ℚ
  dustPresence : ℚ
  timestamp : ℚ

/-- `devices/{id}/panelParameters` subtree. -/
structure PanelParameters where
  voltage : ℚ
  current : ℚ
  power : ℚ
  timestamp : ℚ

/-- `panelStatus.dailyLoss` subtree. -/
structure LossDaily where
  kwh : ℚ
  percentage : ℚ
  currency : ℚ

/-- `panelStatus.weeklyLoss` / `panelStatus.monthlyLoss` subtrees. -/
structure LossAvg where
  kwh : ℚ
  avgPercentage : ℚ

/-- `devices/{id}/panelStatus` subtree. -/
structure PanelStatus where
  dustLevel : ℚ
  dustCategory : String
  currentEfficiency : ℚ
  dailyLoss : LossDaily
  weeklyLoss : LossAvg
  monthlyLoss : LossAvg
  lastUpdated : ℚ

/-- `cleaningControl.autoSettings` subtree; `lastCleaning` and
`nextScheduled` are `null` when unset. -/
structure AutoSettings where
  enabled : Bool
  dustThreshold : ℚ
  scheduleEnabled : Bool
  schedule : String
  lastCleaning : Option ℚ
  nextScheduled : Option ℚ

/-- `cleaningControl.currentOperation` subtree. -/
structure CurrentOperation where
  startTime : Option ℚ
  progress : ℚ
  waterUsed : ℚ
  estimatedCompletion : Option ℚ

/-- `devices/{id}/cleaningControl` subtree. -/
structure CleaningControl where
  mode : String
  method : String
  status : String
  pwmDry : ℚ
  pwmWet : ℚ
  trigger : ℚ
  autoSettings : AutoSettings
  currentOperation : CurrentOperation
  lastUpdated : ℚ

/-- `devices/{id}/historicalData` subtree: daily records keyed by date
string; empty at provisioning, contents never read by the modelled
operations. -/
structure HistoricalData where
  daily : List (String × ℚ)

/-- A full device subtree `devices/{id}`. -/
structure Device where
  info : DeviceInfo
  environment : Environment
  panelParameters : PanelParameters
  panelStatus : PanelStatus
  cleaningControl : CleaningControl
  historicalData : HistoricalData

/-- The `deviceInfo` argument of `addDeviceToUser`: caller-supplied fields,
each possibly absent. -/
structure DeviceInfoInput where
  name : Option String
  location : Option String
  panelRating : Option ℚ
  lat : Option ℚ
  lon : Option ℚ

/-- The complete default device structure written by `addDeviceToUser`.
`installDate` stands for the formatted current date string and `now` for
`Date.now()`. -/
def defaultDeviceData (userId : String) (deviceInfo : DeviceInfoInput)
    (installDate : String) (now : ℚ) : Device :=
  { info :=
      { name := jsOrStr deviceInfo.name "Solar Panel Device"
        location := jsOrStr deviceInfo.location "Not specified"
        installDate := installDate
        panelRating := jsOrNum deviceInfo.panelRating 300
        lat := jsOrNum deviceInfo.lat 0
        lon := jsOrNum deviceInfo.lon 0
        ownerId := userId
        lastUpdated := now
        status := "online" }
    environment := { humidity := 0, temperature := 0, dustPresence := 0, timestamp := now }
    panelParameters := { voltage := 0, current := 0, power := 0, timestamp := now }
    panelStatus :=
      { dustLevel := 0
        dustCategory := "light"
        currentEfficiency := 0
        dailyLoss := { kwh := 0, percentage := 0, currency := 0 }
        weeklyLoss := { kwh := 0, avgPercentage := 0 }
        monthlyLoss := { kwh := 0, avgPercentage := 0 }
        lastUpdated := now }
    cleaningControl :=
      { mode := "manual"
        method := "dry"
        status := "idle"
        pwmDry := 150
        pwmWet := 180
        trigger := 0
        autoSettings :=
          { enabled := false
            dustThreshold := 100
            scheduleEnabled := false
            schedule := "daily"
            lastCleaning := none
            nextScheduled := none }
        currentOperation :=
          { startTime := none
            progress := 0
            waterUsed := 0
            estimatedCompletion := none }
        lastUpdated := now }
    historicalData := { daily := [] } }

/-- Result object of `addDeviceToUser` on success. -/
structure AddDeviceResult where
  success : Bool
  deviceId : String

/-- The slice of the hosted real-time store the modelled operations touch:
`users/{uid}/devices/{did}` references and `devices/{did}` subtrees. -/
structure Store where
  userDevices : String → String → Option Bool
  devices : String → Option Device

/-- `addDeviceToUser`: writes the owner reference `users/{uid}/devices/{did}
= true`, then the complete default device subtree, and returns success with
the generated id. The fresh push key is the `deviceId` argument. -/
def addDeviceToUser (s : Store) (userId : String) (deviceId : String)
    (deviceInfo : DeviceInfoInput) (installDate : String) (now : ℚ) :
    Store × AddDeviceResult :=
  let s1 : Store :=
    { s with userDevices := fun u d =>
        if u = userId ∧ d = deviceId then some true else s.userDevices u d }
  let deviceData := defaultDeviceData userId deviceInfo installDate now
  let s2 : Store :=
    { s1 with devices := fun d =>
        if d = deviceId then some deviceData else s1.devices d }
  (s2, { success := true, deviceId := deviceId })

/- ### ESP32 control module -/

/-- The `environment` part of a sensor report (the code spreads its fields
and overrides the timestamp). -/
structure EnvReport where
  humidity : ℚ
  temperature : ℚ
  dustPresence : ℚ

/-- The `parameters` part of a sensor report; `voltage` and `current` are
read with a `|| 0` default. -/
structure ParamReport where
  voltage : Option ℚ
  current : Option ℚ

/-- The `sensorData` argument of `updateSensorData`; either part may be
absent. -/
structure SensorData where
  environment : Option EnvReport
  parameters : Option ParamReport

/-- `updateSensorData`: merge the environment report (stamping `now`),
rebuild `panelParameters` with `power = voltage * current`, and
unconditionally mark the device online with a fresh `lastUpdated`. -/
def updateSensorData (d : Device) (sensorData : SensorData) (now : ℚ) : Device :=
  let d1 :=
    match sensorData.environment with
    | some env =>
        { d with environment :=
            { humidity := env.humidity
              temperature := env.temperature
              dustPresence := env.dustPresence
              timestamp := now } }
    | none => d
  let d2 :=
    match sensorData.parameters with
    | some p =>
        let voltage := jsOrNum p.voltage 0
        let current := jsOrNum p.current 0
        let power := voltage * current
        { d1 with panelParameters :=
            { voltage := voltage, current := current, power := power, timestamp := now } }
    | none => d1
  { d2 with info := { d2.info with lastUpdated := now, status := "online" } }

/-- `updateCleaningProgress` applied to the `cleaningControl` subtree: always
writes `currentOperation.progress` and `currentOperation.waterUsed` (the
latter defaulting to 0 when the argument is omitted, modelled as `none`);
when `progress >= 100` additionally sets status `completed`, resets the
trigger and stamps `autoSettings.lastCleaning` with `now`. -/
def updateCleaningProgress (cc : CleaningControl) (progress : ℚ)
    (waterUsed : Option ℚ) (now : ℚ) : CleaningControl :=
  let w := waterUsed.getD 0
  let cc1 :=
    { cc with currentOperation :=
        { cc.currentOperation with progress := progress, waterUsed := w } }
  if 100 ≤ progress then
    { cc1 with
        status := "completed"
        trigger := 0
        autoSettings := { cc1.autoSettings with lastCleaning := some now } }
  else cc1

/-- Milliseconds per day, the divisor `1000 * 60 * 60 * 24`. -/
def msPerDay : ℚ := 1000 * 60 * 60 * 24

/-- `shouldTriggerAutoCleaning` over the two snapshots it reads (`none`
models a missing snapshot, in which case the function returns false; any
thrown read error also yields false and is outside the embedding): false
when auto mode is disabled; true when the dust level reaches the threshold;
otherwise the schedule rule, gated on `scheduleEnabled` and a truthy
`lastCleaning`. -/
def shouldTriggerAutoCleaning (autoSettings : Option AutoSettings)
    (panelStatus : Option PanelStatus) (now : ℚ) : Bool :=
  match autoSettings, panelStatus with
  | some a, some p =>
      if !a.enabled then false
      else if a.dustThreshold ≤ p.dustLevel then true
      else if a.scheduleEnabled && jsTruthyTime a.lastCleaning then
        let lastCleaning := a.lastCleaning.getD 0
        let daysSinceLastCleaning := (now - lastCleaning) / msPerDay
        if a.schedule = "daily" then decide (1 ≤ daysSinceLastCleaning)
        else if a.schedule = "weekly" then decide (7 ≤ daysSinceLastCleaning)
        else if a.schedule = "monthly" then decide (30 ≤ daysSinceLastCleaning)
        else false
      else false
  | _, _ => false

/-- `selectCleaningMethod` over the two snapshots it reads (`none` models a
missing snapshot, yielding the `dry` default; a thrown read error also
yields `dry` and is outside the embedding): wet for dust level above 100
unless the temperature is above 45, dry otherwise. -/
def selectCleaningMethod (panelStatus : Option PanelStatus)
    (environment : Option Environment) : String :=
  match panelStatus, environment with
  | some p, some e =>
      if p.dustLevel > 100 then
        if e.temperature > 45 then "dry" else "wet"
      else "dry"
  | _, _ => "dry"

/- ### Dust-level ingestion (weather module, store-facing part) -/

/-- `config/weatherAPI` record. -/
structure WeatherConfig where
  provider : String
  apiKey : String
  updateInterval : ℚ

/-- Result object of `updateDustLevel`: thrown errors are caught and turned
into `{success := false, error := some message}`. -/
structure DustUpdateResult where
  success : Bool
  error : Option String
  dustData : Option DustData

/-- `updateDustLevel`: reads the device info, rejects a falsy (zero)
latitude or longitude with the `Device location not set` error, requires a
config, dispatches on the provider, and on fetched data writes
`panelStatus.dustLevel`, `panelStatus.dustCategory` and
`panelStatus.lastUpdated`. The network fetch result is the `fetched`
argument (`none` models a failed or key-less fetch, which the adapters
signal by returning null). -/
def updateDustLevel (s : Store) (deviceId : String) (config : Option WeatherConfig)
    (fetched : Option DustData) (now : ℚ) : Store × DustUpdateResult :=
  match s.devices deviceId with
  | none => (s, { success := false, error := some "Device not found", dustData := none })
  | some dev =>
      if dev.info.lat = 0 ∨ dev.info.lon = 0 then
        (s, { success := false, error := some "Device location not set", dustData := none })
      else
        match config with
        | none =>
            (s, { success := false, error := some "Weather API config not available",
                  dustData := none })
        | some cfg =>
            if cfg.provider = "openweathermap" ∨ cfg.provider = "weatherapi" then
              match fetched with
              | none =>
                  (s, { success := false, error := some "Failed to fetch dust data",
                        dustData := none })
              | some dustData =>
                  let dev2 :=
                    { dev with panelStatus :=
                        { dev.panelStatus with
                            dustLevel := dustData.dustLevel
                            dustCategory := dustData.dustCategory
                            lastUpdated := now } }
                  let s2 : Store :=
                    { s with devices := fun d =>
                        if d = deviceId then some dev2 else s.devices d }
                  (s2, { success := true, error := none, dustData := some dustData })
            else
              (s, { success := false,
                    error := some ("Unknown provider: " ++ cfg.provider),
                    dustData := none })

/- ### Browser storage (shared storage utility) -/

/-- An expiration envelope as written by `setWithExpiry`: a stored value and
an `expiry` timestamp (`none` models a missing or non-numeric expiry field,
which the read path rejects with the default). -/
structure Envelope (V : Type) where
  value : V
  expiry : Option ℚ

/-- `getWithExpiry`: an absent key or an envelope without a numeric expiry
yields the default; an entry whose expiry lies strictly before `now` is
treated as absent, deleted lazily, and the default returned; otherwise the
stored value is returned and the store untouched. Returns the read value
together with the resulting store. -/
def getWithExpiry {V : Type} (store : String → Option (Envelope V)) (key : String)
    (defaultValue : V) (now : ℚ) : V × (String → Option (Envelope V)) :=
  match store key with
  | none => (defaultValue, store)
  | some payload =>
      match payload.expiry with
      | none => (defaultValue, store)
      | some expiry =>
          if expiry < now then
            (defaultValue, fun k => if k = key then none else store k)
          else
            (payload.value, store)

/- ### Test fixtures (concrete sample states for witnesses) -/

/-- A panel-status record with the given dust level and zeroed aggregates. -/
def samplePanelStatus (dl : ℚ) : PanelStatus :=
  { dustLevel := dl
    dustCategory := "light"
    currentEfficiency := 0
    dailyLoss := { kwh := 0, percentage := 0, currency := 0 }
    weeklyLoss := { kwh := 0, avgPercentage := 0 }
    monthlyLoss := { kwh := 0, avgPercentage := 0 }
    lastUpdated := 0 }

/-- An environment record with the given temperature. -/
def sampleEnvironment (t : ℚ) : Environment :=
  { humidity := 0, temperature := t, dustPresence := 0, timestamp := 0 }

/-- A cleaning-control record mid-clean. -/
def sampleCleaningControl : CleaningControl :=
  { mode := "manual"
    method := "dry"
    status := "cleaning"
    pwmDry := 150
    pwmWet := 180
    trigger := 1
    autoSettings :=
      { enabled := true, dustThreshold := 100, scheduleEnabled := false,
        schedule := "daily", lastCleaning := none, nextScheduled := none }
    currentOperation :=
      { startTime := some 5, progress := 40, waterUsed := 1, estimatedCompletion := none }
    lastUpdated := 0 }

/- ### Claims -/

/-- C1 counterexample: the weather-ingestion path on a provider response with
`pm2_5 = 40` and `pm10 = 60` yields `dustLevel = 50` but category `light`,
not `moderate` as claimed: the moderate branch requires the level to be
strictly above 50. -/
theorem dust_scenario_40_60_yields_light :
    (fetchOpenWeatherMapData { pm2_5 := some 40, pm10 := some 60 } 2 0).dustLevel = 50
    ∧ (fetchOpenWeatherMapData { pm2_5 := some 40, pm10 := some 60 } 2 0).dustCategory = "light"
    ∧ "light" ≠ "moderate" := by
  refine ⟨?_, ?_, by decide⟩
  · norm_num [fetchOpenWeatherMapData, jsOrNum]
  · norm_num [fetchOpenWeatherMapData, jsOrNum, dustCategoryOf]

/-- C1 (amended): for every dust level `d` produced by the weather-ingestion
path (`d = (pm25 + pm10) / 2`, for either provider adapter), the derived
category is `light` when `d <= 50`, `moderate` when `50 < d <= 150`, and
`high` when `d > 150`; a provider response with `pm2_5 = 40` and `pm10 = 60`
yields `dustLevel = 50` and category `light`. -/
theorem dust_category_thresholds_amended (comps : AirComponents) (aq : AirQuality)
    (aqi now d : ℚ) :
    (d ≤ 50 → dustCategoryOf d = "light")
    ∧ (50 < d → d ≤ 150 → dustCategoryOf d = "moderate")
    ∧ (150 < d → dustCategoryOf d = "high")
    ∧ (fetchOpenWeatherMapData comps aqi now).dustLevel
        = dustLevelOf (jsOrNum comps.pm2_5 0) (jsOrNum comps.pm10 0)
    ∧ (fetchOpenWeatherMapData comps aqi now).dustCategory
        = dustCategoryOf (fetchOpenWeatherMapData comps aqi now).dustLevel
    ∧ (fetchWeatherAPIData aq now).dustLevel
        = dustLevelOf (jsOrNum aq.pm2_5 0) (jsOrNum aq.pm10 0)
    ∧ (fetchWeatherAPIData aq now).dustCategory
        = dustCategoryOf (fetchWeatherAPIData aq now).dustLevel
    ∧ (fetchOpenWeatherMapData { pm2_5 := some 40, pm10 := some 60 } aqi now).dustLevel = 50
    ∧ (fetchOpenWeatherMapData { pm2_5 := some 40, pm10 := some 60 } aqi now).dustCategory
        = "light" := by
  refine ⟨?_, ?_, ?_, rfl, rfl, rfl, rfl, ?_, ?_⟩
  · intro h
    unfold dustCategoryOf
    rw [if_neg (by linarith), if_neg (by linarith)]
  · intro h1 h2
    unfold dustCategoryOf
    rw [if_neg (by linarith), if_pos (by linarith)]
  · intro h
    unfold dustCategoryOf
    rw [if_pos (by linarith)]
  · norm_num [fetchOpenWeatherMapData, jsOrNum]
  · norm_num [fetchOpenWeatherMapData, jsOrNum, dustCategoryOf]

/-- C1 witness: the three threshold branches evaluated at 40, 100 and 200. -/
theorem dust_category_thresholds_amended_w :
    dustCategoryOf 40 = "light" ∧ dustCategoryOf 100 = "moderate"
    ∧ dustCategoryOf 200 = "high" :=
  ⟨(dust_category_thresholds_amended ⟨none, none⟩ ⟨none, none, 0⟩ 0 0 40).1 (by norm_num),
   (dust_category_thresholds_amended ⟨none, none⟩ ⟨none, none, 0⟩ 0 0 100).2.1
     (by norm_num) (by norm_num),
   (dust_category_thresholds_amended ⟨none, none⟩ ⟨none, none, 0⟩ 0 0 200).2.2.1
     (by norm_num)⟩

/-- C2 counterexample: with dust level 101 and temperature exactly 45,
`selectCleaningMethod` returns `wet`, not `dry` as claimed: the dry fallback
requires the temperature to be strictly above 45. -/
theorem select_method_temp45_yields_wet :
    selectCleaningMethod (some (samplePanelStatus 101)) (some (sampleEnvironment 45)) = "wet"
    ∧ "wet" ≠ "dry" := by
  refine ⟨?_, by decide⟩
  norm_num [selectCleaningMethod, samplePanelStatus, sampleEnvironment]

/-- C2 (amended): `selectCleaningMethod` returns `dry` when the dust level
equals 100 exactly (the wet branch requires dust strictly above 100), but
when the temperature equals 45 exactly while the dust level exceeds 100 it
returns `wet` (the dry fallback fires only strictly above 45). -/
theorem select_method_boundaries_amended (p : PanelStatus) (e : Environment) :
    (p.dustLevel = 100 → selectCleaningMethod (some p) (some e) = "dry")
    ∧ (100 < p.dustLevel → e.temperature = 45 →
        selectCleaningMethod (some p) (some e) = "wet") := by
  constructor
  · intro h
    show (if p.dustLevel > 100 then if e.temperature > 45 then "dry" else "wet" else "dry")
      = "dry"
    rw [if_neg (by rw [h]; exact lt_irrefl 100)]
  · intro h1 h2
    show (if p.dustLevel > 100 then if e.temperature > 45 then "dry" else "wet" else "dry")
      = "wet"
    rw [if_pos h1, if_neg (by rw [h2]; exact lt_irrefl 45)]

/-- C2 witness: dry at dust level exactly 100; wet at dust 101 with
temperature exactly 45. -/
theorem select_method_boundaries_amended_w :
    selectCleaningMethod (some (samplePanelStatus 100)) (some (sampleEnvironment 45)) = "dry"
    ∧ selectCleaningMethod (some (samplePanelStatus 101)) (some (sampleEnvironment 45)) = "wet" :=
  ⟨(select_method_boundaries_amended (samplePanelStatus 100) (sampleEnvironment 45)).1 rfl,
   (select_method_boundaries_amended (samplePanelStatus 101) (sampleEnvironment 45)).2
     (by norm_num [samplePanelStatus]) rfl⟩

/-- C3: `shouldTriggerAutoCleaning` returns false whenever auto mode is
disabled, regardless of dust level or schedule settings, and when enabled it
returns true when the dust level equals the threshold exactly (the
comparison is inclusive). -/
theorem auto_trigger_disabled_and_threshold (a : AutoSettings) (p : PanelStatus) (now : ℚ) :
    (a.enabled = false → shouldTriggerAutoCleaning (some a) (some p) now = false)
    ∧ (a.enabled = true → p.dustLevel = a.dustThreshold →
        shouldTriggerAutoCleaning (some a) (some p) now = true) := by
  constructor
  · intro h
    simp [shouldTriggerAutoCleaning, h]
  · intro h1 h2
    simp [shouldTriggerAutoCleaning, h1, h2]

/-- C3 witness: disabled settings yield false even with huge dust level;
enabled settings with dust level equal to the threshold yield true. -/
theorem auto_trigger_disabled_and_threshold_w :
    shouldTriggerAutoCleaning
      (some { enabled := false, dustThreshold := 100, scheduleEnabled := true,
              schedule := "daily", lastCleaning := some 1, nextScheduled := none })
      (some (samplePanelStatus 10000)) 0 = false
    ∧ shouldTriggerAutoCleaning
      (some { enabled := true, dustThreshold := 100, scheduleEnabled := false,
              schedule := "daily", lastCleaning := none, nextScheduled := none })
      (some (samplePanelStatus 100)) 0 = true :=
  ⟨(auto_trigger_disabled_and_threshold _ (samplePanelStatus 10000) 0).1 rfl,
   (auto_trigger_disabled_and_threshold _ (samplePanelStatus 100) 0).2 rfl rfl⟩

/-- Helper: under enabled auto mode, enabled schedule, dust below threshold
and a truthy `lastCleaning`, the trigger decision reduces to the schedule
comparison chain. -/
lemma shouldTrigger_schedule_eval (a : AutoSettings) (p : PanelStatus) (now t : ℚ)
    (hen : a.enabled = true) (hsch : a.scheduleEnabled = true)
    (hnd : ¬ a.dustThreshold ≤ p.dustLevel)
    (hsome : a.lastCleaning = some t) (hne : t ≠ 0) :
    shouldTriggerAutoCleaning (some a) (some p) now =
      (if a.schedule = "daily" then decide (1 ≤ (now - t) / msPerDay)
       else if a.schedule = "weekly" then decide (7 ≤ (now - t) / msPerDay)
       else if a.schedule = "monthly" then decide (30 ≤ (now - t) / msPerDay)
       else false) := by
  simp [shouldTriggerAutoCleaning, hen, hsch, hnd, hsome, jsTruthyTime, hne]

/-- C4: with auto mode enabled, the schedule enabled and the dust level
below the threshold, the trigger decision fires exactly when at least 1 day
(schedule `daily`), 7 days (`weekly`) or 30 days (`monthly`) have elapsed
since a set `lastCleaning`; with `lastCleaning` unset the schedule rule
never fires and the function returns false. Elapsed time is stated in
milliseconds against `msPerDay`. -/
theorem auto_trigger_schedule (a : AutoSettings) (p : PanelStatus) (now t : ℚ)
    (hen : a.enabled = true) (hsch : a.scheduleEnabled = true)
    (hdust : p.dustLevel < a.dustThreshold) :
    (a.lastCleaning = none → shouldTriggerAutoCleaning (some a) (some p) now = false)
    ∧ (a.lastCleaning = some t → t ≠ 0 →
        ((a.schedule = "daily" →
            (shouldTriggerAutoCleaning (some a) (some p) now = true ↔ msPerDay ≤ now - t))
         ∧ (a.schedule = "weekly" →
            (shouldTriggerAutoCleaning (some a) (some p) now = true ↔ 7 * msPerDay ≤ now - t))
         ∧ (a.schedule = "monthly" →
            (shouldTriggerAutoCleaning (some a) (some p) now = true ↔ 30 * msPerDay ≤ now - t)))) := by
  have hms : (0:ℚ) < msPerDay := by norm_num [msPerDay]
  have hnd : ¬ a.dustThreshold ≤ p.dustLevel := not_le.mpr hdust
  constructor
  · intro hnone
    simp [shouldTriggerAutoCleaning, hen, hsch, hnd, hnone, jsTruthyTime]
  · intro hsome hne
    rw [shouldTrigger_schedule_eval a p now t hen hsch hnd hsome hne]
    refine ⟨fun hs => ?_, fun hs => ?_, fun hs => ?_⟩
    · rw [if_pos hs, decide_eq_true_eq, le_div_iff₀ hms, one_mul]
    · rw [if_neg (by rw [hs]; decide), if_pos hs, decide_eq_true_eq, le_div_iff₀ hms]
    · rw [if_neg (by rw [hs]; decide), if_neg (by rw [hs]; decide), if_pos hs,
        decide_eq_true_eq, le_div_iff₀ hms]

/-- C4 witness: the scenario of the claim: weekly schedule, `lastCleaning`
8 days before `now`, dust level 0 below threshold 100 yields true. -/
theorem auto_trigger_schedule_w :
    shouldTriggerAutoCleaning
      (some { enabled := true, dustThreshold := 100, scheduleEnabled := true,
              schedule := "weekly", lastCleaning := some 86400000, nextScheduled := none })
      (some (samplePanelStatus 0)) (9 * 86400000) = true := by
  have h := (auto_trigger_schedule
      { enabled := true, dustThreshold := 100, scheduleEnabled := true,
        schedule := "weekly", lastCleaning := some 86400000, nextScheduled := none }
      (samplePanelStatus 0) (9 * 86400000) 86400000
      rfl rfl (by norm_num [samplePanelStatus])).2 rfl (by norm_num)
  exact (h.2.1 rfl).mpr (by norm_num [msPerDay])

/-- C5: a progress update with `progress >= 100` sets the cleaning status to
`completed`, resets the trigger to 0 and stamps `autoSettings.lastCleaning`
with the time of the update. -/
theorem progress_complete_sets_state (cc : CleaningControl) (progress : ℚ)
    (waterUsed : Option ℚ) (now : ℚ) (h : 100 ≤ progress) :
    (updateCleaningProgress cc progress waterUsed now).status = "completed"
    ∧ (updateCleaningProgress cc progress waterUsed now).trigger = 0
    ∧ (updateCleaningProgress cc progress waterUsed now).autoSettings.lastCleaning
        = some now := by
  simp [updateCleaningProgress, h]

/-- C5 witness: a progress-100 update on the sample mid-clean state. -/
theorem progress_complete_sets_state_w :
    (updateCleaningProgress sampleCleaningControl 100 none 7).status = "completed"
    ∧ (updateCleaningProgress sampleCleaningControl 100 none 7).trigger = 0
    ∧ (updateCleaningProgress sampleCleaningControl 100 none 7).autoSettings.lastCleaning
        = some 7 :=
  progress_complete_sets_state sampleCleaningControl 100 none 7 (by norm_num)

/-- C6: provisioning a device and immediately reading the device subtree
back yields exactly the default tree, whose telemetry fields are all zero
and whose cleaning control carries mode `manual`, method `dry`, status
`idle`, `pwmDry = 150`, `pwmWet = 180` and trigger 0; the operation returns
success with the generated identifier and writes the owner reference. -/
theorem provision_round_trip (s : Store) (userId deviceId : String)
    (deviceInfo : DeviceInfoInput) (installDate : String) (now : ℚ) :
    (addDeviceToUser s userId deviceId deviceInfo installDate now).1.devices deviceId
      = some (defaultDeviceData userId deviceInfo installDate now)
    ∧ (addDeviceToUser s userId deviceId deviceInfo installDate now).1.userDevices
        userId deviceId = some true
    ∧ (addDeviceToUser s userId deviceId deviceInfo installDate now).2
      = { success := true, deviceId := deviceId }
    ∧ (defaultDeviceData userId deviceInfo installDate now).environment.humidity = 0
    ∧ (defaultDeviceData userId deviceInfo installDate now).environment.temperature = 0
    ∧ (defaultDeviceData userId deviceInfo installDate now).environment.dustPresence = 0
    ∧ (defaultDeviceData userId deviceInfo installDate now).panelParameters.voltage = 0
    ∧ (defaultDeviceData userId deviceInfo installDate now).panelParameters.current = 0
    ∧ (defaultDeviceData userId deviceInfo installDate now).panelParameters.power = 0
    ∧ (defaultDeviceData userId deviceInfo installDate now).panelStatus.dustLevel = 0
    ∧ (defaultDeviceData userId deviceInfo installDate now).panelStatus.currentEfficiency = 0
    ∧ (defaultDeviceData userId deviceInfo installDate now).panelStatus.dailyLoss
        = { kwh := 0, percentage := 0, currency := 0 }
    ∧ (defaultDeviceData userId deviceInfo installDate now).panelStatus.weeklyLoss
        = { kwh := 0, avgPercentage := 0 }
    ∧ (defaultDeviceData userId deviceInfo installDate now).panelStatus.monthlyLoss
        = { kwh := 0, avgPercentage := 0 }
    ∧ (defaultDeviceData userId deviceInfo installDate now).cleaningControl.mode = "manual"
    ∧ (defaultDeviceData userId deviceInfo installDate now).cleaningControl.method = "dry"
    ∧ (defaultDeviceData userId deviceInfo installDate now).cleaningControl.status = "idle"
    ∧ (defaultDeviceData userId deviceInfo installDate now).cleaningControl.pwmDry = 150
    ∧ (defaultDeviceData userId deviceInfo installDate now).cleaningControl.pwmWet = 180
    ∧ (defaultDeviceData userId deviceInfo installDate now).cleaningControl.trigger = 0
    ∧ (defaultDeviceData userId deviceInfo installDate now).cleaningControl.currentOperation.progress = 0
    ∧ (defaultDeviceData userId deviceInfo installDate now).cleaningControl.currentOperation.waterUsed = 0 := by
  refine ⟨?_, ?_, rfl, rfl, rfl, rfl, rfl, rfl, rfl, rfl, rfl, rfl, rfl, rfl, rfl,
    rfl, rfl, rfl, rfl, rfl, rfl, rfl⟩
  · simp [addDeviceToUser]
  · simp [addDeviceToUser]

/-- C7: for every sensor report whose parameters carry voltage `v` and
current `c`, telemetry ingestion records `panelParameters.power = v * c`
exactly, and always marks the device online with a fresh `lastUpdated`
timestamp. -/
theorem ingest_power_exact_and_online (d : Device) (env : Option EnvReport)
    (v c now : ℚ) :
    (updateSensorData d
        { environment := env, parameters := some { voltage := some v, current := some c } }
        now).panelParameters.power = v * c
    ∧ (updateSensorData d
        { environment := env, parameters := some { voltage := some v, current := some c } }
        now).info.status = "online"
    ∧ (updateSensorData d
        { environment := env, parameters := some { voltage := some v, current := some c } }
        now).info.lastUpdated = now := by
  refine ⟨?_, rfl, rfl⟩
  show jsOrNum (some v) 0 * jsOrNum (some c) 0 = v * c
  rcases eq_or_ne v 0 with hv | hv <;> rcases eq_or_ne c 0 with hc | hc <;>
    simp [jsOrNum, hv, hc]

/-- C8: on the storage read path, an envelope whose expiry lies strictly in
the past is treated as absent: the default is returned and the entry deleted
lazily; an unexpired envelope returns the stored value with the store left
unchanged. -/
theorem storage_expiry_read (V : Type) (store : String → Option (Envelope V))
    (key : String) (defaultValue : V) (payload : Envelope V) (expiry now : ℚ)
    (hkey : store key = some payload) (hexp : payload.expiry = some expiry) :
    (expiry < now →
        (getWithExpiry store key defaultValue now).1 = defaultValue
        ∧ (getWithExpiry store key defaultValue now).2 key = none)
    ∧ (now ≤ expiry →
        (getWithExpiry store key defaultValue now).1 = payload.value
        ∧ (getWithExpiry store key defaultValue now).2 = store) := by
  unfold getWithExpiry
  simp only [hkey, hexp]
  constructor
  · intro h
    rw [if_pos h]
    exact ⟨rfl, by simp⟩
  · intro h
    rw [if_neg (not_lt.mpr h)]
    exact ⟨rfl, rfl⟩

/-- A one-entry browser store holding the value 3 under key `cache` with
expiry time 10. -/
def sampleEnvelopeStore : String → Option (Envelope ℚ) :=
  fun k => if k = "cache" then some { value := 3, expiry := some 10 } else none

/-- C8 witness: at time 11 the entry is expired, so the read yields the
default 0 and deletes the key; at time 9 it yields the stored 3 and leaves
the store unchanged. -/
theorem storage_expiry_read_w :
    ((getWithExpiry sampleEnvelopeStore "cache" 0 11).1 = 0
      ∧ (getWithExpiry sampleEnvelopeStore "cache" 0 11).2 "cache" = none)
    ∧ ((getWithExpiry sampleEnvelopeStore "cache" 0 9).1 = 3
      ∧ (getWithExpiry sampleEnvelopeStore "cache" 0 9).2 = sampleEnvelopeStore) :=
  ⟨(storage_expiry_read ℚ sampleEnvelopeStore "cache" 0
      { value := 3, expiry := some 10 } 10 11 rfl rfl).1 (by norm_num),
   (storage_expiry_read ℚ sampleEnvelopeStore "cache" 0
      { value := 3, expiry := some 10 } 10 9 rfl rfl).2 (by norm_num)⟩

/-- C9: provisioning without coordinates writes the defaults `lat = 0` and
`lon = 0`, and for every device whose stored latitude or longitude equals 0
the dust-level update fails with `Device location not set` and leaves the
store, hence the panel-status subtree, untouched. -/
theorem zero_coords_block_dust_update (s : Store) (deviceId : String)
    (config : Option WeatherConfig) (fetched : Option DustData) (now : ℚ)
    (dev : Device) (userId : String) (deviceInfo : DeviceInfoInput)
    (installDate : String) (t : ℚ) :
    ((deviceInfo.lat = none →
        (defaultDeviceData userId deviceInfo installDate t).info.lat = 0)
     ∧ (deviceInfo.lon = none →
        (defaultDeviceData userId deviceInfo installDate t).info.lon = 0))
    ∧ (s.devices deviceId = some dev → dev.info.lat = 0 ∨ dev.info.lon = 0 →
        updateDustLevel s deviceId config fetched now
          = (s, { success := false, error := some "Device location not set",
                  dustData := none })) := by
  refine ⟨⟨?_, ?_⟩, ?_⟩
  · intro h
    simp [defaultDeviceData, jsOrNum, h]
  · intro h
    simp [defaultDeviceData, jsOrNum, h]
  · intro hdev hzero
    unfold updateDustLevel
    simp only [hdev]
    rw [if_pos hzero]

/-- A device provisioned with no caller-supplied fields, so with the default
zero coordinates. -/
def sampleDeviceNoCoords : Device :=
  defaultDeviceData "user1"
    { name := none, location := none, panelRating := none, lat := none, lon := none }
    "2026-01-01" 0

/-- A store holding only the coordinate-less device under id `dev1`. -/
def sampleStore : Store :=
  { userDevices := fun _ _ => none
    devices := fun d => if d = "dev1" then some sampleDeviceNoCoords else none }

/-- C9 witness: the provisioned-by-default device has latitude 0, and the
dust-level update on it fails with the location error and leaves the store
unchanged. -/
theorem zero_coords_block_dust_update_w :
    sampleDeviceNoCoords.info.lat = 0
    ∧ updateDustLevel sampleStore "dev1" none none 0
        = (sampleStore, { success := false, error := some "Device location not set",
                          dustData := none }) := by
  have h := zero_coords_block_dust_update sampleStore "dev1" none none 0
    sampleDeviceNoCoords "user1"
    { name := none, location := none, panelRating := none, lat := none, lon := none }
    "2026-01-01" 0
  exact ⟨h.1.1 rfl, h.2 rfl (Or.inl (h.1.1 rfl))⟩

/-- C10: a progress update strictly below 100 writes only the
current-operation progress and water-used fields (water used defaulting to 0
when the argument is omitted); status, trigger, auto-settings (hence
`lastCleaning`) and every other cleaning-control field are unchanged. -/
theorem progress_partial_frame (cc : CleaningControl) (progress : ℚ)
    (waterUsed : Option ℚ) (now : ℚ) (h : progress < 100) :
    (updateCleaningProgress cc progress waterUsed now).currentOperation.progress = progress
    ∧ (updateCleaningProgress cc progress waterUsed now).currentOperation.waterUsed
        = waterUsed.getD 0
    ∧ (waterUsed = none →
        (updateCleaningProgress cc progress waterUsed now).currentOperation.waterUsed = 0)
    ∧ (updateCleaningProgress cc progress waterUsed now).status = cc.status
    ∧ (updateCleaningProgress cc progress waterUsed now).trigger = cc.trigger
    ∧ (updateCleaningProgress cc progress waterUsed now).autoSettings = cc.autoSettings
    ∧ (updateCleaningProgress cc progress waterUsed now).mode = cc.mode
    ∧ (updateCleaningProgress cc progress waterUsed now).method = cc.method
    ∧ (updateCleaningProgress cc progress waterUsed now).pwmDry = cc.pwmDry
    ∧ (updateCleaningProgress cc progress waterUsed now).pwmWet = cc.pwmWet
    ∧ (updateCleaningProgress cc progress waterUsed now).lastUpdated = cc.lastUpdated
    ∧ (updateCleaningProgress cc progress waterUsed now).currentOperation.startTime
        = cc.currentOperation.startTime
    ∧ (updateCleaningProgress cc progress waterUsed now).currentOperation.estimatedCompletion
        = cc.currentOperation.estimatedCompletion := by
  have hn : ¬ (100:ℚ) ≤ progress := not_le.mpr h
  refine ⟨?_, ?_, ?_, ?_, ?_, ?_, ?_, ?_, ?_, ?_, ?_, ?_, ?_⟩ <;>
    simp [updateCleaningProgress, hn]
  intro hw
  simp [hw]

/-- C10 witness: a progress-50 update on the sample mid-clean state keeps
status `cleaning` and trigger 1, sets progress 50, and records water used 0
for an omitted argument. -/
theorem progress_partial_frame_w :
    (updateCleaningProgress sampleCleaningControl 50 none 7).currentOperation.progress = 50
    ∧ (updateCleaningProgress sampleCleaningControl 50 none 7).currentOperation.waterUsed = 0
    ∧ (updateCleaningProgress sampleCleaningControl 50 none 7).status = "cleaning"
    ∧ (updateCleaningProgress sampleCleaningControl 50 none 7).trigger = 1
    ∧ (updateCleaningProgress sampleCleaningControl 50 none 7).autoSettings.lastCleaning
        = none := by
  have h := progress_partial_frame sampleCleaningControl 50 none 7 (by norm_num)
  refine ⟨h.1, h.2.2.1 rfl, h.2.2.2.1, h.2.2.2.2.1, ?_⟩
  rw [h.2.2.2.2.2.1]
  rfl

end PrajnaBots
